import Mathlib

/-!
Shallow embedding of `src/amq-jolokia-server.py` (an MCP bridge to an
ActiveMQ Artemis broker's Jolokia HTTP API).

Modelling conventions:
* JSON values returned by `json.loads` are modelled by the inductive `Json`.
* Python dynamic-type faults (`TypeError` from `"error" in x` on a non-container,
  `AttributeError` from `.get` on a non-dict) are modelled by `Except PyErr`.
* The HTTP layer is an oracle input `NetOutcome`: either a response
  (status code, raw body text, and the result of `json.loads` on that body,
  `none` when the body is not valid JSON) or a raised network exception
  carrying its description string (`str(e)` in the source).
* The module-level globals `BASE_URL` and `AMQ_BROKER_NAME` become explicit
  parameters; the mutable dict `authenticated_credentials` becomes an explicit
  `SessionStore` value threaded through the operations.
-/

/-- JSON values as produced by Python's `json.loads`. -/
inductive Json where
  | null : Json
  | bool : Bool → Json
  | num : Int → Json
  | str : String → Json
  | arr : List Json → Json
  | obj : List (String × Json) → Json

/-- Python dynamic-type faults that the source code can raise. -/
inductive PyErr where
  | typeError : PyErr
  | attributeError : PyErr
deriving DecidableEq

mutual

/-- Python `repr` of a JSON-shaped value (used inside containers by `str`). -/
def pyRepr : Json → String
  | Json.null => "None"
  | Json.bool true => "True"
  | Json.bool false => "False"
  | Json.num n => toString n
  | Json.str s => "\x27" ++ s ++ "\x27"
  | Json.arr xs => "[" ++ pyReprSeq xs ++ "]"
  | Json.obj fs => "\x7b" ++ pyReprFields fs ++ "\x7d"

/-- Comma-separated `repr` of list elements. -/
def pyReprSeq : List Json → String
  | [] => ""
  | [x] => pyRepr x
  | x :: y :: xs => pyRepr x ++ ", " ++ pyReprSeq (y :: xs)

/-- Comma-separated `repr` of dict entries. -/
def pyReprFields : List (String × Json) → String
  | [] => ""
  | [(k, v)] => "\x27" ++ k ++ "\x27: " ++ pyRepr v
  | (k, v) :: f :: fs => "\x27" ++ k ++ "\x27: " ++ pyRepr v ++ ", " ++ pyReprFields (f :: fs)

end

/-- Python `str()` applied to a JSON-shaped value (as in an f-string). -/
def pyStr : Json → String
  | Json.str s => s
  | j => pyRepr j

/-- Whether the first character list occurs at the head of the second. -/
def leadMatch : List Char → List Char → Bool
  | [], _ => true
  | _ :: _, [] => false
  | a :: as, b :: bs => a == b && leadMatch as bs

/-- Whether the pattern occurs contiguously anywhere in the second list. -/
def subSearch (pat : List Char) : List Char → Bool
  | [] => leadMatch pat []
  | b :: bs => leadMatch pat (b :: bs) || subSearch pat bs

/-- Python `k in j` for a string `k`: key membership for dicts, element
membership for lists, substring test for strings, `TypeError` otherwise. -/
def pyContains (j : Json) (k : String) : Except PyErr Bool :=
  match j with
  | Json.obj fs => Except.ok (fs.any (fun kv => kv.1 == k))
  | Json.arr xs => Except.ok (xs.any (fun x => match x with
      | Json.str s => s == k
      | _ => false))
  | Json.str s => Except.ok (subSearch k.data s.data)
  | _ => Except.error PyErr.typeError

/-- Python `j.get(k, d)`: only dicts have `.get`; anything else raises
`AttributeError`. A missing key yields the default `d`. -/
def pyGet (j : Json) (k : String) (d : Json) : Except PyErr Json :=
  match j with
  | Json.obj fs => Except.ok ((List.lookup k fs).getD d)
  | _ => Except.error PyErr.attributeError

/-- Python `len(j)`: length of lists, strings and dicts, `TypeError` otherwise. -/
def pyLen : Json → Except PyErr Nat
  | Json.arr xs => Except.ok xs.length
  | Json.str s => Except.ok s.length
  | Json.obj fs => Except.ok fs.length
  | _ => Except.error PyErr.typeError

/-- Python `j == n` against an int literal: numeric equality, with booleans
comparing as 0/1; every other shape compares unequal. -/
def pyEqNum (j : Json) (n : Int) : Bool :=
  match j with
  | Json.num m => m == n
  | Json.bool b => (if b then (1 : Int) else 0) == n
  | _ => false

/-- True when a dict-shaped value has the given key (false on non-dicts). -/
def hasKey (j : Json) (k : String) : Bool :=
  match j with
  | Json.obj fs => fs.any (fun kv => kv.1 == k)
  | _ => false

/-- The module-level dict `authenticated_credentials` (line 19): at most one
username and one password stored at a time; `.get` on a missing key is `none`. -/
structure SessionStore where
  username : Option String
  password : Option String
deriving DecidableEq

/-- The empty session store (no stored username or password). -/
def SessionStore.empty : SessionStore := ⟨none, none⟩

/-- Outcome of the HTTP GET inside `call_jolokia_api`: either a response with
its status code, raw body text and the result of `json.loads` on that body
(`none` when the body is not valid JSON), or a raised network-level exception
carrying `str(e)`. -/
inductive NetOutcome where
  | resp : Nat → String → Option Json → NetOutcome
  | exn : String → NetOutcome

/-- Python truthiness test `not cred` for an `Optional[str]`: `None` and the
empty string are falsy (source lines 45, 133, 164). -/
def credMissing : Option String → Bool
  | none => true
  | some s => s.isEmpty

/-- The URL built on source lines 36-42: `f"{BASE_URL}/{method}/{endpoint}"`,
then, when the keyword-parameter dict is non-empty, `"/" + "/".join(values)`
in caller-supplied order. -/
def request_url (baseUrl method endpoint : String) (params : List String) : String :=
  let url := baseUrl ++ "/" ++ method ++ "/" ++ endpoint
  if params.isEmpty then url else url ++ "/" ++ String.intercalate "/" params

/-- The dict `{"error": ..., "message": ...}` literal shape used by
`call_jolokia_api` and `browse_queue`. -/
def errDict (e m : String) : Json :=
  Json.obj [("error", Json.str e), ("message", Json.str m)]

/-- `call_jolokia_api` (source lines 22-75). Returns the built request URL,
the dict the function returns, and whether an HTTP request was attempted.
The body: build the URL; if either credential is missing return the
authentication-required dict without any network call; otherwise perform the
GET (oracle `net`); a raised exception becomes `{"error": str(e)}`; an HTTP
200 body is JSON-parsed (parse failure gives the invalid-JSON dict, success
gives the parsed payload verbatim); a non-200 HTTP status gives
`{"error": "HTTP <status>", "message": body}` with no parse attempted. -/
def call_jolokia_api (baseUrl method endpoint : String) (params : List String)
    (username password : Option String) (net : NetOutcome) : String × Json × Bool :=
  let url := request_url baseUrl method endpoint params
  if credMissing username || credMissing password then
    (url, errDict "Authentication required" "Please login first using the login tool", false)
  else
    match net with
    | NetOutcome.exn d => (url, Json.obj [("error", Json.str d)], true)
    | NetOutcome.resp status body parsed =>
      if status == 200 then
        match parsed with
        | some payload => (url, payload, true)
        | none => (url, errDict "Invalid JSON response" body, true)
      else
        (url, errDict ("HTTP " ++ toString status) body, true)

/-- The broker root MBean endpoint of source lines 91 and 136:
`f'org.apache.activemq.artemis:broker=!%22{AMQ_BROKER_NAME}!%22'`. -/
def brokerEndpoint (brokerName : String) : String :=
  "org.apache.activemq.artemis:broker=!%22" ++ brokerName ++ "!%22"

/-- The queue MBean endpoint of source lines 170-176, a concatenation of four
f-strings; note `component=addresses`, `subcomponent=queues`, and that both
the address and the queue component are `queue_name`. -/
def browseEndpoint (brokerName queue_name routing_type : String) : String :=
  ("org.apache.activemq.artemis:broker=!%22" ++ brokerName ++ "!%22,")
    ++ ("component=addresses,address=!%22" ++ queue_name ++ "!%22,")
    ++ ("subcomponent=queues,routing-type=!%22" ++ routing_type ++ "!%22,")
    ++ ("queue=!%22" ++ queue_name ++ "!%22")

/-- Response handling of `login` (source lines 94-103), applied to the dict
returned by `call_jolokia_api`: `if "error" in response` format a failure;
`elif response.get("status") == 200` store the credentials; else format the
full response. Dynamic-type faults abort with the store unchanged. -/
def login_handle_response (u p : String) (store : SessionStore) (resp : Json) :
    Except PyErr (String × SessionStore) := do
  let hasErr ← pyContains resp "error"
  if hasErr then
    let e ← pyGet resp "error" Json.null
    let m ← pyGet resp "message" (Json.str "")
    pure ("Authentication failed: " ++ pyStr e ++ " - " ++ pyStr m, store)
  else
    let st ← pyGet resp "status" Json.null
    if pyEqNum st 200 then
      pure ("Successfully authenticated as user: " ++ u, ⟨some u, some p⟩)
    else
      pure ("Authentication failed: " ++ pyStr resp, store)

/-- `login` (source lines 78-103): verify the supplied credentials by reading
the broker `Version` attribute, then commit them to the store only on the
no-error, status-200 path. -/
def login (baseUrl brokerName u p : String) (store : SessionStore) (net : NetOutcome) :
    Except PyErr String × SessionStore × Bool :=
  let c := call_jolokia_api baseUrl "read" (brokerEndpoint brokerName) ["Version"]
    (some u) (some p) net
  match login_handle_response u p store c.2.1 with
  | Except.ok (msg, st) => (Except.ok msg, st, c.2.2)
  | Except.error e => (Except.error e, store, c.2.2)

/-- `logout` (source lines 106-119): clear the store when a username key is
present, otherwise report that no session exists. -/
def logout (store : SessionStore) : String × SessionStore :=
  match store.username with
  | some u => ("Successfully logged out user: " ++ u, SessionStore.empty)
  | none => ("No active session to logout", store)

/-- Response handling of `get_version` (source lines 139-146). -/
def get_version_handle_response (resp : Json) : Except PyErr String := do
  let hasErr ← pyContains resp "error"
  if hasErr then
    let e ← pyGet resp "error" Json.null
    let m ← pyGet resp "message" (Json.str "")
    pure ("Error: " ++ pyStr e ++ " - " ++ pyStr m)
  else
    let st ← pyGet resp "status" Json.null
    if pyEqNum st 200 then
      let v ← pyGet resp "value" (Json.str "Unknown")
      pure ("AMQ Broker Version: " ++ pyStr v)
    else
      pure ("Failed to retrieve version: " ++ pyStr resp)

/-- `get_version` (source lines 122-146): fail fast with the
not-authenticated message when either credential is missing (no network
call), otherwise read the `Version` attribute and format the response. -/
def get_version (baseUrl brokerName : String) (store : SessionStore) (net : NetOutcome) :
    Except PyErr String × SessionStore × Bool :=
  if credMissing store.username || credMissing store.password then
    (Except.ok "Error: Not authenticated. Please login first using the login tool.",
      store, false)
  else
    let c := call_jolokia_api baseUrl "read" (brokerEndpoint brokerName) ["Version"]
      store.username store.password net
    (get_version_handle_response c.2.1, store, c.2.2)

/-- Response handling of `browse_queue` (source lines 180-198), producing the
object that each branch passes to `json.dumps`. -/
def browse_queue_handle_response (queue_name routing_type : String) (resp : Json) :
    Except PyErr Json := do
  let hasErr ← pyContains resp "error"
  if hasErr then
    let e ← pyGet resp "error" Json.null
    let m ← pyGet resp "message" (Json.str "")
    pure (Json.obj [("error", e), ("message", m)])
  else
    let st ← pyGet resp "status" Json.null
    if pyEqNum st 200 then
      let v ← pyGet resp "value" (Json.arr [])
      let n ← pyLen v
      pure (Json.obj [("queue", Json.str queue_name),
        ("routing_type", Json.str routing_type),
        ("message_count", Json.num n),
        ("messages", v)])
    else
      pure (Json.obj [("error", Json.str "Failed to browse queue"), ("response", resp)])

/-- `browse_queue` (source lines 149-198): fail fast with the
not-authenticated object when either credential is missing (no network call),
otherwise `exec` the no-argument `browse()` operation on the queue MBean.
Every branch of the source serializes a dict with `json.dumps`; the model
returns that dict. -/
def browse_queue (baseUrl brokerName queue_name routing_type : String)
    (store : SessionStore) (net : NetOutcome) : Except PyErr Json × SessionStore × Bool :=
  if credMissing store.username || credMissing store.password then
    (Except.ok (errDict "Not authenticated" "Please login first using the login tool"),
      store, false)
  else
    let c := call_jolokia_api baseUrl "exec"
      (browseEndpoint brokerName queue_name routing_type) ["browse()"]
      store.username store.password net
    (browse_queue_handle_response queue_name routing_type c.2.1, store, c.2.2)

/-- Modelled from the spec (section 4.1): the claimed encoding step, replacing
every double-quote character of a component value with the three-character
sequence `!%22` and transforming nothing else. -/
def encodeChars : List Char → List Char
  | [] => []
  | c :: cs => (if c = '"' then "!%22".data else [c]) ++ encodeChars cs

/-- Modelled from the spec (section 4.1): the claimed encoder on strings. -/
def encodeSpec (s : String) : String := String.mk (encodeChars s.data)

/-- The broker root object name as the spec claims it is built: the component
value passes through the claimed quote-replacing encoder before insertion. -/
def brokerEndpointSpecEncoded (b : String) : String :=
  brokerEndpoint (encodeSpec b)

/-- The queue object name as the spec claims it is built: each component
value passes through the claimed quote-replacing encoder before insertion. -/
def browseEndpointSpecEncoded (b q r : String) : String :=
  browseEndpoint (encodeSpec b) (encodeSpec q) (encodeSpec r)

/-- Modelled from the spec (claim C5 and section 4.1): the claimed exact form
of the queue MBean object name, with a free address component, a free
subcomponent kind, and plain double-quote delimiters. -/
def mbeanNameSpecForm (brokerName address subcomponentKind queueName routingType : String) :
    String :=
  "org.apache.activemq.artemis:broker=\"" ++ brokerName
    ++ "\",address=\"" ++ address
    ++ "\",subcomponent=" ++ subcomponentKind
    ++ ",routing-type=\"" ++ routingType
    ++ "\",queue=\"" ++ queueName ++ "\""

/-- A non-empty string is not `isEmpty`. -/
theorem credMissing_some (s : String) (h : s ≠ "") : credMissing (some s) = false := by
  unfold credMissing
  rw [Bool.eq_false_iff]
  intro hh
  exact h ((String.isEmpty_iff s).mp hh)

/-- Reassociate one step and fold a ground left pair of appends. -/
theorem append_fold (a b c X : String) (h : a ++ b = c) : a ++ (b ++ X) = c ++ X := by
  rw [← String.append_assoc, h]

/-- The claimed encoder is the identity on quote-free character lists. -/
theorem encodeChars_id (l : List Char) (h : '"' ∉ l) : encodeChars l = l := by
  induction l with
  | nil => rfl
  | cons c cs ih =>
    have hc : ¬ c = '"' := fun hc => h (by simp [hc])
    have hcs : '"' ∉ cs := fun hm => h (List.mem_cons_of_mem _ hm)
    simp [encodeChars, hc, ih hcs]

/-- The claimed encoder is the identity on quote-free strings. -/
theorem encodeSpec_id (s : String) (h : '"' ∉ s.data) : encodeSpec s = s := by
  cases s with
  | mk data =>
    show String.mk (encodeChars data) = String.mk data
    rw [encodeChars_id data h]

/-- C2: every operation other than login (get_version, browse_queue) invoked
with an empty session store returns the authentication-required result and
performs no network call (third component `false`). -/
theorem ops_require_auth_before_network (baseUrl brokerName q r : String) (net : NetOutcome) :
    get_version baseUrl brokerName SessionStore.empty net
      = (Except.ok "Error: Not authenticated. Please login first using the login tool.",
          SessionStore.empty, false)
    ∧ browse_queue baseUrl brokerName q r SessionStore.empty net
      = (Except.ok (errDict "Not authenticated" "Please login first using the login tool"),
          SessionStore.empty, false) :=
  ⟨rfl, rfl⟩

/-- C10: for every starting session store and every broker response,
get_version and browse_queue leave the session store unchanged. -/
theorem read_ops_preserve_store (baseUrl brokerName q r : String) (store : SessionStore)
    (net : NetOutcome) :
    (get_version baseUrl brokerName store net).2.1 = store
    ∧ (browse_queue baseUrl brokerName q r store net).2.1 = store := by
  constructor
  · unfold get_version
    split <;> rfl
  · unfold browse_queue
    split <;> rfl

/-- C7: the request URL is `baseUrl/method/mbeanName`, followed, when the
parameter list is non-empty, by the parameter values joined by `/` in
caller-supplied order; an empty parameter list yields exactly the bare URL,
and the dispatcher uses exactly this URL. -/
theorem request_url_concatenation (baseUrl method endpoint : String) (params : List String)
    (username password : Option String) (net : NetOutcome) :
    (params = [] →
      request_url baseUrl method endpoint params = baseUrl ++ "/" ++ method ++ "/" ++ endpoint)
    ∧ (params ≠ [] →
      request_url baseUrl method endpoint params
        = baseUrl ++ "/" ++ method ++ "/" ++ endpoint ++ "/" ++ String.intercalate "/" params)
    ∧ (call_jolokia_api baseUrl method endpoint params username password net).1
        = request_url baseUrl method endpoint params := by
  refine ⟨?_, ?_, ?_⟩
  · intro h
    subst h
    rfl
  · intro h
    cases params with
    | nil => exact absurd rfl h
    | cons a as => rfl
  · unfold call_jolokia_api
    (repeat' split) <;> rfl

/-- C7 witness: with one parameter the URL is the three-part concatenation
followed by the slash-joined parameter. -/
theorem request_url_concatenation_witness :
    request_url "http://localhost:8161/console/jolokia" "read"
        "org.apache.activemq.artemis:broker=!%22amq-broker-primary!%22" ["Version"]
      = "http://localhost:8161/console/jolokia/read/org.apache.activemq.artemis:broker=!%22amq-broker-primary!%22/Version" := by
  have h := (request_url_concatenation "http://localhost:8161/console/jolokia" "read"
    "org.apache.activemq.artemis:broker=!%22amq-broker-primary!%22" ["Version"]
    (some "admin") (some "admin") (NetOutcome.exn "e")).2.1 (by decide)
  exact h

/-- C1 counterexample: a queue name containing a double quote is inserted
into the object name verbatim — the built name differs from the claimed
quote-replaced form and still contains a raw double quote; the broker-name
component of the root endpoint behaves the same way. -/
theorem encoder_quote_not_replaced :
    browseEndpoint "amq-broker-primary" "a\"c" "anycast"
      ≠ browseEndpointSpecEncoded "amq-broker-primary" "a\"c" "anycast"
    ∧ subSearch "\"".data (browseEndpoint "amq-broker-primary" "a\"c" "anycast").data = true
    ∧ brokerEndpoint "a\"c" ≠ brokerEndpointSpecEncoded "a\"c" := by
  refine ⟨by decide, by decide, by decide⟩

/-- C1 amended: the bridge applies no transformation at all to component
values; on component values with no double quote this coincides with the
claimed encoding, so the built object names agree with the spec-encoded
forms exactly there. -/
theorem encoder_identity_on_quote_free_components (b q r : String)
    (hb : '"' ∉ b.data) (hq : '"' ∉ q.data) (hr : '"' ∉ r.data) :
    browseEndpoint b q r = browseEndpointSpecEncoded b q r
    ∧ brokerEndpoint b = brokerEndpointSpecEncoded b := by
  unfold browseEndpointSpecEncoded brokerEndpointSpecEncoded
  rw [encodeSpec_id b hb, encodeSpec_id q hq, encodeSpec_id r hr]
  exact ⟨rfl, rfl⟩

/-- C1 witness: on quote-free components the built and spec-encoded names
coincide. -/
theorem encoder_identity_witness :
    browseEndpoint "amq-broker-primary" "orders" "anycast"
      = browseEndpointSpecEncoded "amq-broker-primary" "orders" "anycast" :=
  (encoder_identity_on_quote_free_components "amq-broker-primary" "orders" "anycast"
    (by decide) (by decide) (by decide)).1

/-- C5 counterexample: at broker `amq-broker-primary`, queue `orders`,
routing type `anycast` (with the address and subcomponent the code actually
uses: the queue name and `queues`), the built object name is not of the
claimed form — the code inserts `component=addresses` and renders the
delimiting quotes as `!%22`. -/
theorem queue_mbean_form_mismatch :
    browseEndpoint "amq-broker-primary" "orders" "anycast"
      ≠ mbeanNameSpecForm "amq-broker-primary" "orders" "queues" "orders" "anycast" := by
  decide

/-- C5 amended: for every broker name, queue name and routing type, the queue
MBean object name is exactly
`org.apache.activemq.artemis:broker=!%22<broker>!%22,component=addresses,address=!%22<queue>!%22,subcomponent=queues,routing-type=!%22<routing>!%22,queue=!%22<queue>!%22`
— the address component equals the queue name, the subcomponent is the
literal `queues`, and the quote delimiters appear as `!%22`. -/
theorem queue_mbean_exact_form (b q r : String) :
    browseEndpoint b q r
      = "org.apache.activemq.artemis:broker=!%22" ++ b
        ++ "!%22,component=addresses,address=!%22" ++ q
        ++ "!%22,subcomponent=queues,routing-type=!%22" ++ r
        ++ "!%22,queue=!%22" ++ q ++ "!%22" := by
  unfold browseEndpoint
  simp only [String.append_assoc]
  rw [append_fold "!%22," "component=addresses,address=!%22"
      "!%22,component=addresses,address=!%22" _ rfl,
    append_fold "!%22," "subcomponent=queues,routing-type=!%22"
      "!%22,subcomponent=queues,routing-type=!%22" _ rfl,
    append_fold "!%22," "queue=!%22" "!%22,queue=!%22" _ rfl]

/-- The store component of `login` is decided by `login_handle_response`. -/
theorem login_snd (baseUrl brokerName u p : String) (store : SessionStore) (net : NetOutcome) :
    (login baseUrl brokerName u p store net).2.1
      = (match login_handle_response u p store
            (call_jolokia_api baseUrl "read" (brokerEndpoint brokerName) ["Version"]
              (some u) (some p) net).2.1 with
        | Except.ok (_, st) => st
        | Except.error _ => store) := by
  unfold login
  cases h : login_handle_response u p store
      (call_jolokia_api baseUrl "read" (brokerEndpoint brokerName) ["Version"]
        (some u) (some p) net).2.1 with
  | ok a => cases a with | mk msg st => simp [h]
  | error e => simp [h]

/-- Starting from the empty store, `login_handle_response` either commits
exactly the supplied pair or leaves the store empty, and it commits iff the
response has no error field (per Python `in`) and its `status` field compares
equal to 200. -/
theorem login_handle_store_empty (u p : String) (j : Json) :
    ((match login_handle_response u p SessionStore.empty j with
      | Except.ok (_, st) => st
      | Except.error _ => SessionStore.empty)
      = ⟨some u, some p⟩
     ∨ (match login_handle_response u p SessionStore.empty j with
        | Except.ok (_, st) => st
        | Except.error _ => SessionStore.empty)
        = SessionStore.empty)
    ∧ ((match login_handle_response u p SessionStore.empty j with
        | Except.ok (_, st) => st
        | Except.error _ => SessionStore.empty)
        ≠ SessionStore.empty
      ↔ pyContains j "error" = Except.ok false
        ∧ ∃ st, pyGet j "status" Json.null = Except.ok st ∧ pyEqNum st 200 = true) := by
  cases j with
  | null => simp [login_handle_response, pyContains, pyGet, SessionStore.empty, bind, Except.bind]
  | bool b => simp [login_handle_response, pyContains, pyGet, SessionStore.empty, bind, Except.bind]
  | num n => simp [login_handle_response, pyContains, pyGet, SessionStore.empty, bind, Except.bind]
  | str s =>
    cases h : subSearch "error".data s.data with
    | true =>
      simp [login_handle_response, pyContains, pyGet, h, SessionStore.empty, bind, Except.bind]
    | false =>
      simp [login_handle_response, pyContains, pyGet, h, SessionStore.empty, bind, Except.bind]
  | arr xs =>
    cases h : xs.any (fun x => match x with
      | Json.str s => s == "error"
      | _ => false) with
    | true =>
      simp [login_handle_response, pyContains, pyGet, h, SessionStore.empty, bind, Except.bind]
    | false =>
      simp [login_handle_response, pyContains, pyGet, h, SessionStore.empty, bind, Except.bind]
  | obj fs =>
    cases h : fs.any (fun kv => kv.1 == "error") with
    | true =>
      simp [login_handle_response, pyContains, pyGet, h, SessionStore.empty, bind, Except.bind,
        pure, Except.pure]
    | false =>
      cases hst : pyEqNum ((List.lookup "status" fs).getD Json.null) 200 with
      | true =>
        simp [login_handle_response, pyContains, pyGet, h, hst, SessionStore.empty, bind,
          Except.bind, pure, Except.pure]
      | false =>
        simp [login_handle_response, pyContains, pyGet, h, hst, SessionStore.empty, bind,
          Except.bind, pure, Except.pure]

/-- C3 counterexample: the verification call returns a payload whose Jolokia
status field equals 200, yet login leaves the empty store empty, because the
payload also carries an `error` field and the error check runs first. -/
theorem login_status200_with_error_field_not_stored :
    pyGet (Json.obj [("error", Json.str "boom"), ("status", Json.num 200)]) "status" Json.null
      = Except.ok (Json.num 200)
    ∧ (login "http://localhost:8161/console/jolokia" "amq-broker-primary" "admin" "admin"
        SessionStore.empty
        (NetOutcome.resp 200 "x"
          (some (Json.obj [("error", Json.str "boom"), ("status", Json.num 200)])))).2.1
      = SessionStore.empty := by
  exact ⟨rfl, rfl⟩

/-- C3 amended: starting from the empty store, login stores the supplied pair
iff the verification response has no `error` field and its `status` field
compares equal to 200; in every other case (declared error, transport error,
non-200 status, or a dynamic-type fault) the store stays empty, and the store
is only ever the supplied pair or empty. -/
theorem login_store_characterization (baseUrl brokerName u p : String) (net : NetOutcome) :
    ((login baseUrl brokerName u p SessionStore.empty net).2.1 = ⟨some u, some p⟩
      ∨ (login baseUrl brokerName u p SessionStore.empty net).2.1 = SessionStore.empty)
    ∧ ((login baseUrl brokerName u p SessionStore.empty net).2.1 ≠ SessionStore.empty
      ↔ pyContains (call_jolokia_api baseUrl "read" (brokerEndpoint brokerName) ["Version"]
            (some u) (some p) net).2.1 "error" = Except.ok false
        ∧ ∃ st, pyGet (call_jolokia_api baseUrl "read" (brokerEndpoint brokerName) ["Version"]
              (some u) (some p) net).2.1 "status" Json.null = Except.ok st
            ∧ pyEqNum st 200 = true) := by
  rw [login_snd]
  exact login_handle_store_empty u p
    (call_jolokia_api baseUrl "read" (brokerEndpoint brokerName) ["Version"]
      (some u) (some p) net).2.1

/-- C3 witness: a clean status-200 payload commits the credentials. -/
theorem login_store_characterization_witness :
    (login "http://localhost:8161/console/jolokia" "amq-broker-primary" "admin" "secret"
        SessionStore.empty
        (NetOutcome.resp 200 "x"
          (some (Json.obj [("status", Json.num 200), ("value", Json.str "2.31.0")])))).2.1
      = ⟨some "admin", some "secret"⟩ := by
  have h := (login_store_characterization "http://localhost:8161/console/jolokia"
    "amq-broker-primary" "admin" "secret"
    (NetOutcome.resp 200 "x"
      (some (Json.obj [("status", Json.num 200), ("value", Json.str "2.31.0")])))).1
  rcases h with h | h
  · exact h
  · exact absurd h (by decide)

/-- C4 counterexample: on HTTP 200 with a parsed payload whose `status` field
equals 200, the claimed rule demands a success carrying `payload.value`
(here `"2.31.0"`), but because the payload also has an `error` field the code
classifies it as a declared error. -/
theorem normalizer_error_field_shadows_status200 :
    pyGet (Json.obj [("error", Json.str "boom"), ("status", Json.num 200),
        ("value", Json.str "2.31.0")]) "status" Json.null
      = Except.ok (Json.num 200)
    ∧ (get_version "http://localhost:8161/console/jolokia" "amq-broker-primary"
        ⟨some "admin", some "admin"⟩
        (NetOutcome.resp 200 "x"
          (some (Json.obj [("error", Json.str "boom"), ("status", Json.num 200),
            ("value", Json.str "2.31.0")])))).1
      = Except.ok "Error: boom - "
    ∧ "Error: boom - " ≠ "AMQ Broker Version: 2.31.0" := by
  refine ⟨rfl, rfl, by decide⟩

/-- C4 amended: for every (httpStatus, rawBodyText) pair (the parse outcome
of the body given as an oracle), the normalization distributed over
`call_jolokia_api` and its callers yields: non-200 HTTP status gives the
declared-error dict `{"error": "HTTP <status>", "message": body}` with no
parse attempted; 200 with an unparseable body gives the invalid-JSON dict
carrying the raw text; 200 with a parsed payload returns the payload
verbatim, which the operation then classifies — an `error` field wins over
everything (even status 200), else status 200 yields success carrying
`payload.value`, else a declared error formats the full payload. -/
theorem normalizer_amended_characterization (baseUrl brokerName u p : String)
    (hu : u ≠ "") (hp : p ≠ "") (s : Nat) (body : String) (parsed : Option Json) :
    (s ≠ 200 →
      (call_jolokia_api baseUrl "read" (brokerEndpoint brokerName) ["Version"]
          (some u) (some p) (NetOutcome.resp s body parsed)).2.1
        = errDict ("HTTP " ++ toString s) body)
    ∧ (s = 200 → parsed = none →
      (call_jolokia_api baseUrl "read" (brokerEndpoint brokerName) ["Version"]
          (some u) (some p) (NetOutcome.resp s body parsed)).2.1
        = errDict "Invalid JSON response" body)
    ∧ (∀ payload, s = 200 → parsed = some payload →
      (call_jolokia_api baseUrl "read" (brokerEndpoint brokerName) ["Version"]
          (some u) (some p) (NetOutcome.resp s body parsed)).2.1 = payload)
    ∧ (∀ fs, s = 200 → parsed = some (Json.obj fs) →
      ((fs.any (fun kv => kv.1 == "error") = true →
        (get_version baseUrl brokerName ⟨some u, some p⟩ (NetOutcome.resp s body parsed)).1
          = Except.ok ("Error: " ++ pyStr ((List.lookup "error" fs).getD Json.null)
              ++ " - " ++ pyStr ((List.lookup "message" fs).getD (Json.str ""))))
      ∧ (fs.any (fun kv => kv.1 == "error") = false →
          pyEqNum ((List.lookup "status" fs).getD Json.null) 200 = true →
          (get_version baseUrl brokerName ⟨some u, some p⟩ (NetOutcome.resp s body parsed)).1
            = Except.ok ("AMQ Broker Version: "
                ++ pyStr ((List.lookup "value" fs).getD (Json.str "Unknown"))))
      ∧ (fs.any (fun kv => kv.1 == "error") = false →
          pyEqNum ((List.lookup "status" fs).getD Json.null) 200 = false →
          (get_version baseUrl brokerName ⟨some u, some p⟩ (NetOutcome.resp s body parsed)).1
            = Except.ok ("Failed to retrieve version: " ++ pyStr (Json.obj fs))))) := by
  have h1 := credMissing_some u hu
  have h2 := credMissing_some p hp
  refine ⟨?_, ?_, ?_, ?_⟩
  · intro hs
    have hb : (s == 200) = false := beq_eq_false_iff_ne.mpr hs
    simp [call_jolokia_api, h1, h2, hb]
  · rintro rfl rfl
    simp [call_jolokia_api, h1, h2]
  · rintro payload rfl rfl
    simp [call_jolokia_api, h1, h2]
  · rintro fs rfl rfl
    refine ⟨?_, ?_, ?_⟩
    · intro he
      simp [get_version, get_version_handle_response, call_jolokia_api, h1, h2,
        pyContains, pyGet, he, bind, Except.bind, pure, Except.pure]
    · intro he hstv
      simp [get_version, get_version_handle_response, call_jolokia_api, h1, h2,
        pyContains, pyGet, he, hstv, bind, Except.bind, pure, Except.pure]
    · intro he hstv
      simp [get_version, get_version_handle_response, call_jolokia_api, h1, h2,
        pyContains, pyGet, he, hstv, bind, Except.bind, pure, Except.pure]

/-- C4 witness: a clean 200/200 payload yields the success rendering carrying
the payload value. -/
theorem normalizer_amended_witness :
    (get_version "http://localhost:8161/console/jolokia" "amq-broker-primary"
        ⟨some "admin", some "admin"⟩
        (NetOutcome.resp 200 "x"
          (some (Json.obj [("status", Json.num 200), ("value", Json.str "2.31.0")])))).1
      = Except.ok "AMQ Broker Version: 2.31.0" := by
  have h := (((normalizer_amended_characterization "http://localhost:8161/console/jolokia"
    "amq-broker-primary" "admin" "admin" (by decide) (by decide) 200 "x"
    (some (Json.obj [("status", Json.num 200), ("value", Json.str "2.31.0")]))).2.2.2
      [("status", Json.num 200), ("value", Json.str "2.31.0")] rfl rfl).2.1
        (by decide) (by decide))
  exact h

/-- C6: when the broker responds with HTTP 200 and payload
`{"status": 200, "value": <list>}`, browse_queue returns the object with
fields `queue` (the queue name), `routing_type`, `message_count` and
`messages`, where `messages` is the payload value list and `message_count`
is its length. -/
theorem browse_success_shape (baseUrl brokerName q r u p : String)
    (hu : u ≠ "") (hp : p ≠ "") (body : String) (msgs : List Json) :
    (browse_queue baseUrl brokerName q r ⟨some u, some p⟩
        (NetOutcome.resp 200 body
          (some (Json.obj [("status", Json.num 200), ("value", Json.arr msgs)])))).1
      = Except.ok (Json.obj [("queue", Json.str q), ("routing_type", Json.str r),
          ("message_count", Json.num msgs.length), ("messages", Json.arr msgs)]) := by
  have h1 := credMissing_some u hu
  have h2 := credMissing_some p hp
  simp [browse_queue, browse_queue_handle_response, call_jolokia_api, h1, h2,
    pyContains, pyGet, pyLen, pyEqNum, bind, Except.bind, pure, Except.pure,
    List.lookup]

/-- C6 witness: a two-message payload yields message_count 2 and the two
messages in order. -/
theorem browse_success_shape_witness :
    (browse_queue "http://localhost:8161/console/jolokia" "amq-broker-primary"
        "orders" "anycast" ⟨some "admin", some "admin"⟩
        (NetOutcome.resp 200 "x"
          (some (Json.obj [("status", Json.num 200),
            ("value", Json.arr [Json.str "m1", Json.str "m2"])])))).1
      = Except.ok (Json.obj [("queue", Json.str "orders"),
          ("routing_type", Json.str "anycast"),
          ("message_count", Json.num 2),
          ("messages", Json.arr [Json.str "m1", Json.str "m2"])]) := by
  have h := browse_success_shape "http://localhost:8161/console/jolokia"
    "amq-broker-primary" "orders" "anycast" "admin" "admin" (by decide) (by decide)
    "x" [Json.str "m1", Json.str "m2"]
  exact h

/-- C8 counterexample: a 200 response whose body is valid JSON but not a JSON
object (the body `5`) makes `"error" in response` raise a TypeError inside
get_version — an exception propagates out of a bridge operation. -/
theorem non_object_payload_faults :
    (get_version "http://localhost:8161/console/jolokia" "amq-broker-primary"
        ⟨some "admin", some "admin"⟩ (NetOutcome.resp 200 "5" (some (Json.num 5)))).1
      = Except.error PyErr.typeError := by
  rfl

/-- C8 amended: every exception raised during the HTTP dispatch is caught and
converted into the `{"error": str(e)}` dict, and the bridge operations render
it as an error result rather than a fault; the no-fault guarantee holds for
dispatch exceptions (but not for non-object JSON payloads, see the
counterexample). -/
theorem dispatch_exceptions_converted (baseUrl brokerName q r u p : String)
    (hu : u ≠ "") (hp : p ≠ "") (d : String) :
    (call_jolokia_api baseUrl "read" (brokerEndpoint brokerName) ["Version"]
        (some u) (some p) (NetOutcome.exn d)).2.1 = Json.obj [("error", Json.str d)]
    ∧ (get_version baseUrl brokerName ⟨some u, some p⟩ (NetOutcome.exn d)).1
      = Except.ok ("Error: " ++ d ++ " - ")
    ∧ (browse_queue baseUrl brokerName q r ⟨some u, some p⟩ (NetOutcome.exn d)).1
      = Except.ok (Json.obj [("error", Json.str d), ("message", Json.str "")])
    ∧ (login baseUrl brokerName u p SessionStore.empty (NetOutcome.exn d)).1
      = Except.ok ("Authentication failed: " ++ d ++ " - ") := by
  have h1 := credMissing_some u hu
  have h2 := credMissing_some p hp
  refine ⟨?_, ?_, ?_, ?_⟩
  · simp [call_jolokia_api, h1, h2]
  · simp [get_version, get_version_handle_response, call_jolokia_api, h1, h2,
      pyContains, pyGet, pyStr, bind, Except.bind, pure, Except.pure,
      List.lookup, String.append_assoc, String.append_empty]
  · simp [browse_queue, browse_queue_handle_response, call_jolokia_api, h1, h2,
      pyContains, pyGet, bind, Except.bind, pure, Except.pure, List.lookup]
  · simp [login, login_handle_response, call_jolokia_api, h1, h2,
      pyContains, pyGet, pyStr, bind, Except.bind, pure, Except.pure,
      List.lookup, String.append_assoc, String.append_empty]

/-- C8 witness: a connection failure description is rendered as an error
result by get_version. -/
theorem dispatch_exceptions_converted_witness :
    (get_version "http://localhost:8161/console/jolokia" "amq-broker-primary"
        ⟨some "admin", some "admin"⟩ (NetOutcome.exn "Cannot connect to host")).1
      = Except.ok "Error: Cannot connect to host - " := by
  have h := (dispatch_exceptions_converted "http://localhost:8161/console/jolokia"
    "amq-broker-primary" "q" "anycast" "admin" "admin" (by decide) (by decide)
    "Cannot connect to host").2.1
  exact h

/-- Shape of every object `browse_queue_handle_response` can return: the
success object (with a `queue` field), the declared-error object (with
`error` and `message`), or the status-failure object (with `error` and
`response`). -/
theorem browse_handle_shape (q r : String) (resp : Json) (j : Json)
    (h : browse_queue_handle_response q r resp = Except.ok j) :
    hasKey j "queue" = true
    ∨ (hasKey j "error" = true ∧ (hasKey j "message" = true ∨ hasKey j "response" = true)) := by
  cases resp with
  | null => simp [browse_queue_handle_response, pyContains, bind, Except.bind] at h
  | bool b => simp [browse_queue_handle_response, pyContains, bind, Except.bind] at h
  | num n => simp [browse_queue_handle_response, pyContains, bind, Except.bind] at h
  | str s =>
    cases hc : subSearch "error".data s.data with
    | true =>
      simp [browse_queue_handle_response, pyContains, pyGet, hc, bind, Except.bind] at h
    | false =>
      simp [browse_queue_handle_response, pyContains, pyGet, hc, bind, Except.bind] at h
  | arr xs =>
    cases hc : xs.any (fun x => match x with
      | Json.str s => s == "error"
      | _ => false) with
    | true =>
      simp [browse_queue_handle_response, pyContains, pyGet, hc, bind, Except.bind] at h
    | false =>
      simp [browse_queue_handle_response, pyContains, pyGet, hc, bind, Except.bind] at h
  | obj fs =>
    cases hc : fs.any (fun kv => kv.1 == "error") with
    | true =>
      simp [browse_queue_handle_response, pyContains, pyGet, hc, bind, Except.bind,
        pure, Except.pure] at h
      subst h
      simp [hasKey]
    | false =>
      cases hst : pyEqNum ((List.lookup "status" fs).getD Json.null) 200 with
      | true =>
        cases hv : pyLen ((List.lookup "value" fs).getD (Json.arr [])) with
        | error e =>
          simp [browse_queue_handle_response, pyContains, pyGet, hc, hst, hv, bind,
            Except.bind, pure, Except.pure] at h
        | ok n =>
          simp [browse_queue_handle_response, pyContains, pyGet, hc, hst, hv, bind,
            Except.bind, pure, Except.pure] at h
          subst h
          simp [hasKey]
      | false =>
        simp [browse_queue_handle_response, pyContains, pyGet, hc, hst, bind, Except.bind,
          pure, Except.pure] at h
        subst h
        simp [hasKey]

/-- C9 counterexample: with credentials present and a payload with no `error`
field and a non-200 Jolokia status, browse_queue returns an object carrying
`error` and `response` — there is no `message` field, so the returned value
is not an `error`/`message` pair. -/
theorem browse_status_branch_lacks_message :
    (browse_queue "http://localhost:8161/console/jolokia" "amq-broker-primary"
        "orders" "anycast" ⟨some "admin", some "admin"⟩
        (NetOutcome.resp 200 "x" (some (Json.obj [("status", Json.num 404)])))).1
      = Except.ok (Json.obj [("error", Json.str "Failed to browse queue"),
          ("response", Json.obj [("status", Json.num 404)])])
    ∧ hasKey (Json.obj [("error", Json.str "Failed to browse queue"),
        ("response", Json.obj [("status", Json.num 404)])]) "message" = false := by
  exact ⟨rfl, rfl⟩

/-- C9 amended: every value browse_queue returns without faulting is either
the success object (field `queue`) or an error object with field `error`
accompanied by `message` (precondition and declared-error branches) or by
`response` (the Jolokia status-failure branch, which carries the full
payload instead of a message). -/
theorem browse_error_results_shape (baseUrl brokerName q r : String)
    (store : SessionStore) (net : NetOutcome) (j : Json)
    (h : (browse_queue baseUrl brokerName q r store net).1 = Except.ok j) :
    hasKey j "queue" = true
    ∨ (hasKey j "error" = true ∧ (hasKey j "message" = true ∨ hasKey j "response" = true)) := by
  unfold browse_queue at h
  by_cases hcred : (credMissing store.username || credMissing store.password) = true
  · rw [if_pos hcred] at h
    simp only [Prod.fst] at h
    cases h
    simp [hasKey, errDict]
  · rw [if_neg hcred] at h
    exact browse_handle_shape q r _ j h

/-- C9 witness: the not-authenticated result is an error/message object. -/
theorem browse_error_results_shape_witness :
    hasKey (errDict "Not authenticated" "Please login first using the login tool") "error" = true
    ∨ hasKey (errDict "Not authenticated" "Please login first using the login tool") "queue"
        = true := by
  have h := browse_error_results_shape "http://localhost:8161/console/jolokia"
    "amq-broker-primary" "orders" "anycast" SessionStore.empty (NetOutcome.exn "e")
    (errDict "Not authenticated" "Please login first using the login tool") rfl
  rcases h with h | ⟨h, _⟩
  · exact Or.inr h
  · exact Or.inl h
